import Mathlib

set_option maxRecDepth 100000

/-!
# Verification of the OE_APP logistics dashboard (`src/app.py`)

This file gives a shallow embedding, in Lean 4, of the data-cleaning and
aggregation pipeline of `src/app.py` (a Streamlit dashboard script), and
proves properties of that embedding.

Conventions of the embedding:
* Python `float` arithmetic on the exact values arising here is modelled by
  `ℚ`; the non-finite results of numpy division (`inf`, `nan`) are modelled
  explicitly by the `PFloat` type where division can occur.
* Cell values are `PyVal`: `vnone` stands for `None`/`NaN` (a missing cell),
  `vstr` for a string cell, `vdt` for a native `datetime`/`Timestamp` value
  (only its hour/minute/second fields are ever read).
* Python string operations used by the script (`strip`, `split`,
  lower-casing, substring tests) are re-implemented structurally on
  `List Char` so that they are fully computable inside the kernel.
  They cover the ASCII behaviour exercised by the script; Python's
  additional Unicode whitespace/digit tolerance is not modelled.
* Raised exceptions are modelled with `Except String`; the string is a
  shorthand for the Python exception that would be raised at that point.
-/

/-- Characters Python `str.strip()` removes (ASCII whitespace). -/
def isPySpace (c : Char) : Bool :=
  c = ' ' || c = '\t' || c = '\n' || c = '\r' || c = '\x0b' || c = '\x0c'

/-- Python `str.strip()` on a character list: drop leading and trailing whitespace. -/
def stripChars (l : List Char) : List Char :=
  ((l.dropWhile isPySpace).reverse.dropWhile isPySpace).reverse

/-- Auxiliary for `splitChars`: accumulates the current segment (reversed). -/
def splitCharsAux (sep : Char) : List Char → List Char → List (List Char)
  | [], acc => [acc.reverse]
  | c :: rest, acc =>
    if c = sep then acc.reverse :: splitCharsAux sep rest []
    else splitCharsAux sep rest (c :: acc)

/-- Python `str.split(sep)` with a one-character separator: keeps empty
segments, and on the empty string returns one empty segment, exactly as in
Python. -/
def splitChars (sep : Char) (l : List Char) : List (List Char) :=
  splitCharsAux sep l []

/-- Python `str.strip()` at `String` level. -/
def pyStrip (s : String) : String := ⟨stripChars s.data⟩

/-- Python `s.split(sep)` (one-character separator) at `String` level. -/
def pySplit (s : String) (sep : Char) : List String :=
  (splitChars sep s.data).map String.mk

/-- Substring test on character lists (Python `sub in s`). -/
def subIn (sub l : List Char) : Bool :=
  (List.range (l.length + 1)).any (fun i => sub.isPrefixOf (l.drop i))

/-- Python `sub in s` at `String` level. -/
def pyContains (s sub : String) : Bool := subIn sub.data s.data

/-- Python `c in s` for a single character. -/
def pyContainsChar (s : String) (c : Char) : Bool := s.data.contains c

/-- Python `str.lower()` (ASCII). -/
def pyLower (s : String) : String := ⟨s.data.map Char.toLower⟩

/-- Numeric value of an ASCII digit. -/
def digitVal (c : Char) : Nat := c.toNat - 48

/-- Digit tail of a Python integer literal: digits, with single underscores
allowed only between digits (as `int("1_2")` accepts). Accumulates the value. -/
def pyIntLoop : List Char → Nat → Option Nat
  | [], acc => some acc
  | '_' :: c :: rest, acc =>
    if c.isDigit then pyIntLoop rest (acc * 10 + digitVal c) else none
  | c :: rest, acc =>
    if c.isDigit then pyIntLoop rest (acc * 10 + digitVal c) else none

/-- Unsigned part of Python `int(...)`: a nonempty digit string (with
underscore grouping). -/
def pyIntNat : List Char → Option Nat
  | [] => none
  | c :: rest => if c.isDigit then pyIntLoop rest (digitVal c) else none

/-- Model of Python `int(string)`: strip whitespace, optional sign, then a
decimal digit string; any other shape raises `ValueError`, modelled as
`none`. -/
def pyInt (s : String) : Option Int :=
  match stripChars s.data with
  | '+' :: rest => (pyIntNat rest).map Int.ofNat
  | '-' :: rest => (pyIntNat rest).map (fun n => -(n : Int))
  | l => (pyIntNat l).map Int.ofNat

/-- A raw spreadsheet cell as seen by the script: `None`/`NaN`, a string, or
a native datetime value (of which only hour/minute/second are read). -/
inductive PyVal where
  | vnone
  | vstr (s : String)
  | vdt (hour minute second : Nat)
deriving DecidableEq

/-- Two-digit zero-padded rendering of a number (for `str(datetime)`). -/
def fmt2 (n : Nat) : String := if n < 10 then "0" ++ toString n else toString n

/-- Python `str(cell)` as used by `.astype(str)` in `src/app.py` line 114.
`NaN` renders as `"nan"`; a datetime renders as `"YYYY-MM-DD hh:mm:ss"` (the
date part is irrelevant downstream, a fixed one is used here). -/
def pyStr : PyVal → String
  | .vnone => "nan"
  | .vstr s => s
  | .vdt h m s => "1900-01-01 " ++ fmt2 h ++ ":" ++ fmt2 m ++ ":" ++ fmt2 s

/-- Embedding of `parse_time_duration` (`src/app.py` lines 21-41): convert a
raw time-like value to minutes. `None`/`NaN` or `""` give `none`; a datetime
gives `hour*60 + minute + second/60`; a string is stripped and split on `:`,
with exactly 3 integer parts giving `HH*60+MM+SS/60`, exactly 2 giving
`HH*60+MM`, and everything else (including an `int()` failure, caught by the
bare `except`) giving `none`. Note: no date-prefix stripping happens here. -/
def parse_time_duration : PyVal → Option ℚ
  | .vnone => none
  | .vdt h m s => some ((h : ℚ) * 60 + (m : ℚ) + (s : ℚ) / 60)
  | .vstr s0 =>
    if s0 = "" then none
    else
      match pySplit (pyStrip s0) ':' with
      | [a, b, c] =>
        match pyInt a, pyInt b, pyInt c with
        | some x, some y, some z =>
          some ((x : ℚ) * 60 + (y : ℚ) + (z : ℚ) / 60)
        | _, _, _ => none
      | [a, b] =>
        match pyInt a, pyInt b with
        | some x, some y => some ((x : ℚ) * 60 + (y : ℚ))
        | _, _ => none
      | _ => none

/-- String-level core of `clean_time_string` (`src/app.py` lines 43-50):
strip, and if a space remains keep `split(" ")[1]` - the second
space-separated segment, i.e. the text between the first and second space. -/
def clean_str (s : String) : String :=
  let t := pyStrip s
  if pyContainsChar t ' ' then (pySplit t ' ').getD 1 "" else t

/-- Embedding of `clean_time_string` (`src/app.py` lines 43-50): `None`/`NaN`
gives `none`, otherwise the value is rendered with `str(...)` and cleaned by
`clean_str`. -/
def clean_time_string : PyVal → Option String
  | .vnone => none
  | v => some (clean_str (pyStr v))

/-- Result of a float computation that may be non-finite: numpy produces
`inf`/`-inf`/`nan` instead of raising on division by zero. Finite values are
exact rationals. -/
inductive PFloat where
  | fin (q : ℚ)
  | pinf
  | ninf
  | nan
deriving DecidableEq

/-- numpy float division. `x/0` is `±inf` for `x ≠ 0` and `nan` for `0/0`
(a `RuntimeWarning`, not an exception). Non-finite operands (never produced
by this pipeline) propagate to `nan`. -/
def PFloat.div : PFloat → PFloat → PFloat
  | .fin a, .fin b =>
    if b = 0 then (if a = 0 then .nan else if 0 < a then .pinf else .ninf)
    else .fin (a / b)
  | _, _ => .nan

/-- The rational value of a finite `PFloat` (`0` on non-finite values; only
applied where finiteness is proved). -/
def PFloat.val : PFloat → ℚ
  | .fin q => q
  | _ => 0

/-- Sum of a list of exact rationals (a pandas column sum; all columns summed
by the script are NaN-free, see `min_per_piece_finite`). -/
def qsum (l : List ℚ) : ℚ := l.foldr (· + ·) 0

/-- pandas `Series.mean()`: sum over count; the empty mean is `0/0 = NaN`. -/
def pmean (l : List ℚ) : PFloat := PFloat.div (.fin (qsum l)) (.fin (l.length : ℚ))

/-- Value of a digit string (no underscores; used by the float parser). -/
def digitsToNat (l : List Char) : Nat := l.foldl (fun acc c => acc * 10 + digitVal c) 0

/-- Unsigned decimal-literal parser backing `to_numeric`: digits with an
optional fractional part, at least one digit in total. Scientific notation
and `inf`/`nan` literals, which `pd.to_numeric` also accepts, are not
modelled (never exercised here). -/
def pyDecCore (l : List Char) : Option ℚ :=
  let ip := l.takeWhile Char.isDigit
  match l.drop ip.length with
  | [] => if ip = [] then none else some (digitsToNat ip)
  | '.' :: fp =>
    if fp.all Char.isDigit && (!ip.isEmpty || !fp.isEmpty) then
      some ((digitsToNat ip : ℚ) + (digitsToNat fp : ℚ) / ((10 : ℚ) ^ fp.length))
    else none
  | _ => none

/-- Model of `pd.to_numeric(errors='coerce')` on one cell: `None`/`NaN` and
datetimes coerce to `NaN` (`none`), strings are parsed as signed decimal
literals after stripping, anything unparseable coerces to `NaN`. -/
def to_numeric_coerce : PyVal → Option ℚ
  | .vnone => none
  | .vdt _ _ _ => none
  | .vstr s =>
    match stripChars s.data with
    | '+' :: rest => pyDecCore rest
    | '-' :: rest => (pyDecCore rest).map Neg.neg
    | l => pyDecCore l

/-- The `Pieces` column value (`src/app.py` line 105):
`pd.to_numeric(df[qty_col], errors='coerce').fillna(0)`. -/
def pieces_val (v : PyVal) : ℚ := (to_numeric_coerce v).getD 0

/-- The `Min_per_Piece` column (`src/app.py` lines 108-110): first
`Duration_Min / Pieces` with numpy division semantics (line 108), then rows
with `Pieces == 0` are overwritten with `0` (line 110). -/
def min_per_piece (d p : ℚ) : PFloat :=
  let raw := PFloat.div (.fin d) (.fin p)
  if p = 0 then .fin 0 else raw

/-- A raw input row: the cells of one record, keyed by column name. A column
present in the frame but missing from the list is a `NaN` cell. -/
abbrev Row : Type := List (String × PyVal)

/-- Cell of row `r` in column `c` (missing cell = `NaN`). Column existence in
the frame is checked separately, where pandas would raise `KeyError`. -/
def cellVal (r : Row) (c : String) : PyVal :=
  (List.lookup c r).getD .vnone

/-- Time-column discovery (`src/app.py` lines 79-88): first column whose
lower-cased name contains both `"cleaned"` and `"time"`, else the first whose
lower-cased name contains `"process time"`, else none. -/
def find_time_col (cols : List String) : Option String :=
  match cols.find? (fun c => pyContains (pyLower c) "cleaned" && pyContains (pyLower c) "time") with
  | some c => some c
  | none => cols.find? (fun c => pyContains (pyLower c) "process time")

/-- Pieces-column discovery (`src/app.py` line 104): the exact name
`'Number of pieces'` if present, else the first column containing the
case-sensitive substring `'pieces'`; `none` models the `IndexError` raised by
`df.columns[...][0]` on an empty match. -/
def find_qty_col (cols : List String) : Option String :=
  if cols.contains "Number of pieces" then some "Number of pieces"
  else cols.find? (fun c => pyContains c "pieces")

/-- Start-column discovery (`src/app.py` line 113): exact `'START'`, else the
first column containing `'START'` case-insensitively, else `IndexError`. -/
def find_start_col (cols : List String) : Option String :=
  if cols.contains "START" then some "START"
  else cols.find? (fun c => pyContains (pyLower c) "start")

/-- The `Start_Hour` lambda plus `astype(int)` (`src/app.py` line 114): the
cell is rendered with `str`, cleaned, and if the result is nonempty and
contains `':'` its text before the first `':'` is kept, else `'00'`; then
`int(...)`, whose failure (`ValueError`) aborts the run. -/
def start_hour (v : PyVal) : Except String Int :=
  let t := clean_str (pyStr v)
  let tok := if t ≠ "" && pyContainsChar t ':' then (pySplit t ':').getD 0 "" else "00"
  match pyInt tok with
  | some n => .ok n
  | none => .error "ValueError: invalid literal for int() with base 10"

/-- Duration assignment (`src/app.py` lines 92-98). With a detected time
column, `Duration_Min` is `parse_time_duration` of that cell. With none, the
script warns it will compute from `START`/`END` but the fallback body is a
stub: it assigns the constant `0` to every row and never reads `START` or
`END`. -/
def assign_duration (time_col : Option String) (r : Row) : Option ℚ :=
  match time_col with
  | some c => parse_time_duration (cellVal r c)
  | none => some 0

/-- Row classification (`src/app.py` line 101, `df = df[df['Duration_Min'] > 0]`):
keep rows whose duration parsed and is strictly positive (`NaN > 0` is false
in pandas, so unparseable rows are dropped). Each kept row is paired with its
duration. -/
def classify (time_col : Option String) (rows : List Row) : List (Row × ℚ) :=
  rows.filterMap (fun r =>
    match assign_duration time_col r with
    | some d => if 0 < d then some (r, d) else none
    | none => none)

/-- A valid (kept) row after column derivation (`src/app.py` lines 101-114):
its duration, coerced piece count, per-piece time, grouping keys (`none` for
a `NaN` key, which `groupby` drops), and whether its `DN NUMBER (SAP)` cell
is non-null (pandas `count` counts non-null cells only). -/
structure VRow where
  material : Option String
  customer : Option String
  dnPresent : Bool
  dur : ℚ
  pieces : ℚ
  mpp : ℚ
deriving DecidableEq

instance : Inhabited VRow := ⟨⟨none, none, false, 0, 0, 0⟩⟩

/-- A `groupby` key: the cell's value (as its string rendering) for non-null
cells; `NaN` keys are dropped by `groupby`. -/
def groupKey (v : PyVal) : Option String :=
  match v with
  | .vnone => none
  | v => some (pyStr v)

/-- Derivation of the per-row columns for one kept row (`src/app.py` lines
105-110 for `Pieces`/`Min_per_Piece`; the grouping cells are read by the
`groupby` calls at lines 138, 169 and the `agg` at line 141). -/
def extract_vrow (qty_col : String) (rd : Row × ℚ) : VRow :=
  let p := pieces_val (cellVal rd.1 qty_col)
  { material := groupKey (cellVal rd.1 "Material")
    customer := groupKey (cellVal rd.1 "CUSTOMER")
    dnPresent := cellVal rd.1 "DN NUMBER (SAP)" != .vnone
    dur := rd.2
    pieces := p
    mpp := (min_per_piece rd.2 p).val }

/-- One aggregated row of `mat_stats` (`src/app.py` lines 138-143). -/
structure MatRow where
  material : String
  durMean : ℚ
  mppMean : ℚ
  dnCount : Nat
  piecesSum : ℚ
deriving DecidableEq

instance : Inhabited MatRow := ⟨⟨"", 0, 0, 0, 0⟩⟩

/-- One aggregated row of `cust_stats` (`src/app.py` lines 169-173). -/
structure CustRow where
  customer : String
  dnCount : Nat
  durSum : ℚ
deriving DecidableEq

/-- The valid rows belonging to one material group. -/
def mat_group (vr : List VRow) (m : String) : List VRow :=
  vr.filter (fun r => r.material = some m)

/-- The group keys of `df.groupby('Material')`: the distinct non-null
material values, in sorted order (`groupby` sorts keys by default). -/
def matKeys (vr : List VRow) : List String :=
  List.insertionSort (· ≤ ·) (vr.filterMap (·.material)).dedup

/-- The aggregate row for one material (`src/app.py` lines 138-143): mean
duration, mean per-piece time, count of non-null `DN NUMBER (SAP)` cells,
and total pieces over the group. Groups are nonempty (keys come from the
rows), so the means are plain rational divisions. -/
def mkMatRow (vr : List VRow) (m : String) : MatRow :=
  let g := mat_group vr m
  { material := m
    durMean := qsum (g.map (·.dur)) / (g.length : ℚ)
    mppMean := qsum (g.map (·.mpp)) / (g.length : ℚ)
    dnCount := (g.filter (·.dnPresent)).length
    piecesSum := qsum (g.map (·.pieces)) }

/-- `mat_stats` (`src/app.py` lines 138-143): one aggregate row per material. -/
def mat_stats (vr : List VRow) : List MatRow :=
  (matKeys vr).map (mkMatRow vr)

/-- `mat_stats_filtered` (`src/app.py` line 146): keep only materials whose
`DN NUMBER (SAP)` count is at least 3. -/
def mat_stats_filtered (vr : List VRow) : List MatRow :=
  (mat_stats vr).filter (fun r => 3 ≤ r.dnCount)

/-- Descending order on mean per-piece time (`sort_values(by='Min_per_Piece',
ascending=False)`, `src/app.py` line 149). -/
def mppDesc (a b : MatRow) : Prop := b.mppMean ≤ a.mppMean

instance : DecidableRel mppDesc :=
  fun a b => inferInstanceAs (Decidable (b.mppMean ≤ a.mppMean))

instance : IsTotal MatRow mppDesc := ⟨fun a b => le_total b.mppMean a.mppMean⟩

instance : IsTrans MatRow mppDesc := ⟨fun _ _ _ h1 h2 => le_trans h2 h1⟩

/-- Descending order on mean duration (`sort_values(by='Duration_Min',
ascending=False)`, `src/app.py` line 234). -/
def durDesc (a b : MatRow) : Prop := b.durMean ≤ a.durMean

instance : DecidableRel durDesc :=
  fun a b => inferInstanceAs (Decidable (b.durMean ≤ a.durMean))

instance : IsTotal MatRow durDesc := ⟨fun a b => le_total b.durMean a.durMean⟩

instance : IsTrans MatRow durDesc := ⟨fun _ _ _ h1 h2 => le_trans h2 h1⟩

/-- `top_slowest` (`src/app.py` line 149): the filtered material stats sorted
by per-piece time descending, first 15 rows. -/
def top_slowest (vr : List VRow) : List MatRow :=
  (List.insertionSort mppDesc (mat_stats_filtered vr)).take 15

/-- The `Material_Analysis` export sheet (`src/app.py` line 234): the
UNfiltered `mat_stats`, sorted by mean duration descending. -/
def material_sheet (vr : List VRow) : List MatRow :=
  List.insertionSort durDesc (mat_stats vr)

/-- The valid rows belonging to one customer group. -/
def cust_group (vr : List VRow) (c : String) : List VRow :=
  vr.filter (fun r => r.customer = some c)

/-- The group keys of `df.groupby('CUSTOMER')`. -/
def custKeys (vr : List VRow) : List String :=
  List.insertionSort (· ≤ ·) (vr.filterMap (·.customer)).dedup

/-- `cust_stats` (`src/app.py` lines 169-173): per customer, the count of
non-null `DN NUMBER (SAP)` cells and the summed duration. -/
def cust_stats (vr : List VRow) : List CustRow :=
  (custKeys vr).map (fun c =>
    let g := cust_group vr c
    { customer := c
      dnCount := (g.filter (·.dnPresent)).length
      durSum := qsum (g.map (·.dur)) })

/-- Descending order on total customer time (`sort_values(by='Celkový Čas
(min)', ascending=False)`, `src/app.py` line 237). -/
def custDurDesc (a b : CustRow) : Prop := b.durSum ≤ a.durSum

instance : DecidableRel custDurDesc :=
  fun a b => inferInstanceAs (Decidable (b.durSum ≤ a.durSum))

/-- Weighted per-piece average (`src/app.py` line 125):
`df['Duration_Min'].sum() / df['Pieces'].sum()` over the valid rows, with
numpy division semantics (`0/0` on an empty frame is `NaN`). This is the
value displayed in the second metric card (line 128). -/
def weighted_avg_piece_time (vr : List VRow) : PFloat :=
  PFloat.div (.fin (qsum (vr.map (·.dur)))) (.fin (qsum (vr.map (·.pieces))))

/-- The dashboard state rendered after a successful run: metric-card values
(`src/app.py` lines 122-130), aggregate tables (lines 138-173), the derived
start hours (line 114), and the export sheets (lines 231-237). Chart
rendering consumes these same values and is not modelled further. -/
structure Dashboard where
  cleanData : List VRow
  avgOrderTime : PFloat
  avgPieceTime : PFloat
  weightedAvgPieceTime : PFloat
  celkemZakazek : Nat
  celkemKusu : ℚ
  startHours : List Int
  matStats : List MatRow
  topSlowest : List MatRow
  custStats : List CustRow
  materialSheet : List MatRow
  customerSheet : List CustRow
deriving DecidableEq

/-- The fixed advice text of the top-level exception handler (`src/app.py`
line 252): a constant listing EXPECTED column names; it does not depend on
the columns actually detected in the input. -/
def generic_error_advice : String :=
  "Zkontrolujte, zda soubor obsahuje sloupce jako 'Material', 'CUSTOMER', 'START', 'Process Time' atd."

/-- The whole analysis pass over an uploaded table (`src/app.py` lines
65-248), from column discovery to the rendered dashboard. `Except.error`
models an exception reaching the top-level handler (line 250), in source
order: pieces-column discovery (line 104), start-column discovery (line 113),
`astype(int)` of the hour tokens (line 114), then the `KeyError`s of
`groupby`/`agg` on missing `Material`, `DN NUMBER (SAP)`, `CUSTOMER` columns
(lines 138, 141, 169). -/
def analyze (cols : List String) (rows : List Row) : Except String Dashboard :=
  let tc := find_time_col cols
  let cl := classify tc rows
  match find_qty_col cols with
  | none => .error "IndexError: index 0 is out of bounds for axis 0 with size 0"
  | some qc =>
    match find_start_col cols with
    | none => .error "IndexError: index 0 is out of bounds for axis 0 with size 0"
    | some sc =>
      match cl.mapM (fun rd => start_hour (cellVal rd.1 sc)) with
      | .error e => .error e
      | .ok hours =>
        if cols.contains "Material" = false then .error "KeyError: Material"
        else if cols.contains "DN NUMBER (SAP)" = false then .error "KeyError: DN NUMBER (SAP)"
        else if cols.contains "CUSTOMER" = false then .error "KeyError: CUSTOMER"
        else
          let vr := cl.map (extract_vrow qc)
          .ok { cleanData := vr
                avgOrderTime := pmean (vr.map (·.dur))
                avgPieceTime := pmean (vr.map (·.mpp))
                weightedAvgPieceTime := weighted_avg_piece_time vr
                celkemZakazek := vr.length
                celkemKusu := qsum (vr.map (·.pieces))
                startHours := hours
                matStats := mat_stats vr
                topSlowest := top_slowest vr
                custStats := cust_stats vr
                materialSheet := material_sheet vr
                customerSheet := List.insertionSort custDurDesc (cust_stats vr) }

instance : Inhabited PFloat := ⟨.fin 0⟩

instance : Inhabited Dashboard :=
  ⟨⟨[], default, default, default, 0, 0, [], [], [], [], [], []⟩⟩

/-- Modelled from the spec: the START/END fallback computation of the
Duration Resolver (spec section 4.2), which is MISSING from `src/app.py` -
the fallback branch there (lines 94-98) is a stub that assigns `0`. Parse
`START` and `END` with the Time Parser; if either is unparseable the result
is absent; otherwise `end - start`, plus 1440 when the difference is
negative. -/
def resolve_start_end (startv endv : PyVal) : Option ℚ :=
  match parse_time_duration startv, parse_time_duration endv with
  | some s, some e => some (if e - s < 0 then e - s + 1440 else e - s)
  | _, _ => none

/-- A record with no primary duration and `START`/`END` spanning midnight. -/
def c1row : Row := [("START", .vstr "22:00"), ("END", .vstr "02:00")]

/-- Sequence a list of optional values: `some` of the list of values when all
are present, `none` as soon as one is absent. -/
def optList {α : Type} : List (Option α) → Option (List α)
  | [] => some []
  | none :: _ => none
  | some a :: rest => (optList rest).map (a :: ·)

/-- Stated from the wording of claim C3 (spec section 4.1, steps 1 and 4),
as a reference to compare `parse_time_duration` against: trim whitespace,
split on `':'`; exactly 3 integer parts give `HH*60+MM+SS/60`, exactly 2
give `HH*60+MM`, and any other part count or any non-integer part is absent. -/
def time_parser_claim (s : String) : Option ℚ :=
  match optList ((pySplit (pyStrip s) ':').map pyInt) with
  | some [h, m, sec] => some ((h : ℚ) * 60 + (m : ℚ) + (sec : ℚ) / 60)
  | some [h, m] => some ((h : ℚ) * 60 + (m : ℚ))
  | _ => none

/-- Valid rows with durations `[10, 20]` and pieces `[2, 3]` (their
`Min_per_Piece` cells derived exactly as the script derives them). -/
def c5rows : List VRow :=
  [{ material := some "M", customer := some "X", dnPresent := true,
     dur := 10, pieces := 2, mpp := (min_per_piece 10 2).val },
   { material := some "M", customer := some "X", dnPresent := true,
     dur := 20, pieces := 3, mpp := (min_per_piece 20 3).val }]

/-- The columns of the running example table. -/
def c2cols : List String :=
  ["DN NUMBER (SAP)", "Material", "CUSTOMER", "START", "END",
   "Process Time - cleaned", "Number of pieces"]

/-- A row with a valid 5-minute duration. -/
def c2row1 : Row :=
  [("DN NUMBER (SAP)", .vstr "D1"), ("Material", .vstr "A"), ("CUSTOMER", .vstr "X"),
   ("START", .vstr "08:00"), ("END", .vstr "08:05"),
   ("Process Time - cleaned", .vstr "0:05"), ("Number of pieces", .vstr "2")]

/-- A row whose duration cell is unparseable (an invalid row). -/
def c2row2 : Row :=
  [("DN NUMBER (SAP)", .vstr "D2"), ("Material", .vstr "A"), ("CUSTOMER", .vstr "X"),
   ("START", .vstr "09:00"), ("END", .vstr "09:30"),
   ("Process Time - cleaned", .vstr "broken"), ("Number of pieces", .vstr "3")]

/-- The dashboard rendered on the running 2-row example. -/
def c2dash : Dashboard :=
  match analyze c2cols [c2row1, c2row2] with
  | .ok d => d
  | .error _ => default

/-- Columns of a table whose pieces column is named `"Piece count"`: it
matches the claim's case-insensitive `'piece'` rule but not the code's
case-sensitive `'pieces'` substring, and `'Number of pieces'` is absent. -/
def c7cols : List String :=
  ["DN NUMBER (SAP)", "Material", "CUSTOMER", "START", "END",
   "Process Time - cleaned", "Piece count"]

/-- A fully valid row for the `c7cols` table. -/
def c7row : Row :=
  [("DN NUMBER (SAP)", .vstr "D1"), ("Material", .vstr "A"), ("CUSTOMER", .vstr "X"),
   ("START", .vstr "08:00"), ("END", .vstr "08:05"),
   ("Process Time - cleaned", .vstr "0:05"), ("Piece count", .vstr "4")]

/-- A row (for the full column set `c2cols`) whose duration cell is
unparseable, so that no row survives classification. -/
def c8row : Row :=
  [("DN NUMBER (SAP)", .vstr "D1"), ("Material", .vstr "A"), ("CUSTOMER", .vstr "X"),
   ("START", .vstr "08:00"), ("END", .vstr "08:05"),
   ("Process Time - cleaned", .vstr "broken"), ("Number of pieces", .vstr "2")]

/-- Valid rows where material `"A"` occurs twice and `"B"` three times. -/
def c9vr : List VRow :=
  [⟨some "A", some "X", true, 10, 1, 10⟩,
   ⟨some "A", some "X", true, 12, 1, 12⟩,
   ⟨some "B", some "X", true, 5, 1, 5⟩,
   ⟨some "B", some "X", true, 6, 1, 6⟩,
   ⟨some "B", some "X", true, 7, 1, 7⟩]

/-- Claim C1: the claim says that when a record carries no positive primary
duration the code resolves `START`/`END` with rollover (240 minutes for
22:00 to 02:00). The code's fallback branch is a stub: it assigns the
constant duration `0` (never reading `START`/`END`), so the row is then
dropped by the classifier, while the spec's resolver (modelled here as
`resolve_start_end`) yields 240. -/
theorem c1_fallback_stub_not_resolver :
    assign_duration none c1row = some 0 ∧
    classify none [c1row] = [] ∧
    resolve_start_end (cellVal c1row "START") (cellVal c1row "END") = some 240 ∧
    (0 : ℚ) ≠ 240 := by
  refine ⟨rfl, by with_unfolding_all decide, by with_unfolding_all decide, by norm_num⟩

/-- Claim C4, counterexample: `parse_time_duration` does not strip a date
prefix, so on the claim's own example input it returns absent, not 840. -/
theorem c4_date_prefix_counterexample :
    parse_time_duration (.vstr "1900-01-01 14:00:00") ≠ some 840 := by
  with_unfolding_all decide

/-- Claim C4, amended: the Time Parser itself performs no space handling and
is absent on a date-prefixed timestamp; date stripping lives only in the
separate `clean_time_string` helper (used for the start-hour bucket), which
keeps `split(" ")[1]` - the segment after the FIRST space, not after the
last - and that helper does map the example to `"14:00:00"` (which the
parser then reads as 840). -/
theorem c4_date_prefix_amended :
    parse_time_duration (.vstr "1900-01-01 14:00:00") = none ∧
    clean_time_string (.vstr "1900-01-01 14:00:00") = some "14:00:00" ∧
    parse_time_duration (.vstr "14:00:00") = some 840 ∧
    clean_time_string (.vstr "a 14:00 b c") = some "14:00" := by
  with_unfolding_all decide

/-- Claim C5: the displayed per-piece metric (`src/app.py` line 128 shows
`weighted_avg_piece_time` of line 125) is `sum(Duration_Min)/sum(Pieces)`:
for durations `[10, 20]` and pieces `[2, 3]` it is `30/5 = 6`, while the
mean of per-row ratios (line 123, computed but not displayed) is `35/6`,
which differs. -/
theorem c5_weighted_average :
    weighted_avg_piece_time c5rows = .fin 6 ∧
    pmean (c5rows.map (·.mpp)) = .fin (35 / 6) ∧
    (35 / 6 : ℚ) ≠ 6 := by
  refine ⟨by with_unfolding_all decide, by with_unfolding_all decide, by norm_num⟩

/-- Every row kept by the classifier has a strictly positive duration. -/
theorem classify_pos {tc : Option String} {rows : List Row} :
    ∀ rd ∈ classify tc rows, 0 < rd.2 := by
  intro rd h
  unfold classify at h
  obtain ⟨r, _, hr⟩ := List.mem_filterMap.mp h
  cases hd : assign_duration tc r with
  | none => rw [hd] at hr; cases hr
  | some d =>
    rw [hd] at hr
    have hr' : (if 0 < d then some (r, d) else none) = some rd := hr
    by_cases hpos : 0 < d
    · rw [if_pos hpos] at hr'; cases hr'; exact hpos
    · rw [if_neg hpos] at hr'; cases hr'

/-- The classifier never keeps more rows than it was given. -/
theorem classify_length_le (tc : Option String) (rows : List Row) :
    (classify tc rows).length ≤ rows.length :=
  List.length_filterMap_le _ _

/-- Claim C2, counterexample: on a 2-row input with one invalid row, the
displayed "Celkem Zakázek" metric is 1 (the VALID row count, because line
101 reassigns `df` to the filtered frame before line 129 takes `len(df)`),
not the total input row count 2 that the claim asserts; the invalid row is
retained nowhere. -/
theorem c2_headline_count_counterexample :
    (analyze c2cols [c2row1, c2row2]).toOption.map (·.celkemZakazek) = some 1 ∧
    [c2row1, c2row2].length = 2 ∧
    (analyze c2cols [c2row1, c2row2]).toOption.map (·.celkemZakazek) ≠
      some [c2row1, c2row2].length := by
  refine ⟨by with_unfolding_all decide, rfl, by with_unfolding_all decide⟩

/-- Claim C2, amended: the headline "Celkem Zakázek" metric equals the
VALID-duration row count (not the total input row count); the valid count
never exceeds the total row count; and the invalid rows are dropped outright
(every row reaching the dashboard has positive duration; no invalid count or
preview is displayed). -/
theorem c2_headline_counts_amended (cols : List String) (rows : List Row)
    (d : Dashboard) (h : analyze cols rows = .ok d) :
    d.celkemZakazek = d.cleanData.length ∧
    d.cleanData.length = (classify (find_time_col cols) rows).length ∧
    (classify (find_time_col cols) rows).length ≤ rows.length ∧
    ∀ r ∈ d.cleanData, 0 < r.dur := by
  unfold analyze at h
  dsimp only at h
  cases hq : find_qty_col cols with
  | none => rw [hq] at h; cases h
  | some qc =>
    rw [hq] at h
    cases hs : find_start_col cols with
    | none => rw [hs] at h; cases h
    | some sc =>
      rw [hs] at h
      dsimp only at h
      cases hh : (classify (find_time_col cols) rows).mapM
          (fun rd => start_hour (cellVal rd.1 sc)) with
      | error e => rw [hh] at h; cases h
      | ok hours =>
        rw [hh] at h
        dsimp only at h
        by_cases hm : cols.contains "Material" = false
        · rw [if_pos hm] at h; cases h
        · rw [if_neg hm] at h
          by_cases hdn : cols.contains "DN NUMBER (SAP)" = false
          · rw [if_pos hdn] at h; cases h
          · rw [if_neg hdn] at h
            by_cases hcu : cols.contains "CUSTOMER" = false
            · rw [if_pos hcu] at h; cases h
            · rw [if_neg hcu] at h
              cases h
              refine ⟨rfl, List.length_map _ _, classify_length_le _ _, ?_⟩
              intro r hr
              obtain ⟨rd, hrd, rfl⟩ := List.mem_map.mp hr
              exact classify_pos rd hrd

theorem c2dash_eq : analyze c2cols [c2row1, c2row2] = .ok c2dash := by
  with_unfolding_all rfl

/-- Claim C2 witness: the amended statement instantiated on the running
2-row example. -/
theorem c2_headline_counts_amended_witness :
    c2dash.celkemZakazek = c2dash.cleanData.length ∧
    (classify (find_time_col c2cols) [c2row1, c2row2]).length ≤ [c2row1, c2row2].length :=
  ⟨(c2_headline_counts_amended c2cols [c2row1, c2row2] c2dash c2dash_eq).1,
   (c2_headline_counts_amended c2cols [c2row1, c2row2] c2dash c2dash_eq).2.2.1⟩

theorem optList_length {α : Type} :
    ∀ {l : List (Option α)} {l' : List α}, optList l = some l' → l'.length = l.length := by
  intro l
  induction l with
  | nil => intro l' h; cases h; rfl
  | cons o rest ih =>
    intro l' h
    cases o with
    | none => cases h
    | some a =>
      unfold optList at h
      cases hr : optList rest with
      | none => rw [hr] at h; cases h
      | some t => rw [hr] at h; cases h; simp [ih hr]

/-- Claim C3: on every string the Time Parser behaves exactly as the claim
describes (`time_parser_claim`): after trimming, a `':'`-split into exactly 3
integer parts gives `HH*60+MM+SS/60`, exactly 2 give `HH*60+MM`, and any
other part count or non-integer part is absent (no bounds checks); and the
three concrete absent cases `parse("")`, `parse(None)`,
`parse("not a time")` hold. -/
theorem c3_time_parser_contract :
    (∀ s : String, parse_time_duration (.vstr s) = time_parser_claim s) ∧
    parse_time_duration .vnone = none ∧
    parse_time_duration (.vstr "") = none ∧
    parse_time_duration (.vstr "not a time") = none := by
  refine ⟨fun s => ?_, rfl, by with_unfolding_all decide, by with_unfolding_all decide⟩
  by_cases h0 : s = ""
  · subst h0; with_unfolding_all decide
  · simp only [parse_time_duration, time_parser_claim]
    rw [if_neg h0]
    generalize pySplit (pyStrip s) ':' = parts
    match parts with
    | [] => rfl
    | [a] => cases ha : pyInt a <;> simp [optList, ha]
    | [a, b] =>
      cases ha : pyInt a <;> cases hb : pyInt b <;> simp [optList, ha, hb]
    | [a, b, c] =>
      cases ha : pyInt a <;> cases hb : pyInt b <;> cases hc : pyInt c <;>
        simp [optList, ha, hb, hc]
    | a :: b :: c :: d :: rest =>
      cases ha : pyInt a <;> cases hb : pyInt b <;> cases hc : pyInt c <;>
        cases hd : pyInt d <;> simp [optList, ha, hb, hc, hd]

/-- Claim C7, counterexample: with no column containing the case-sensitive
substring `'pieces'`, the run does not default every row to 1 piece with a
warning - `df.columns[df.columns.str.contains('pieces')][0]` raises
`IndexError` (caught by the generic top-level handler) and no dashboard is
produced. -/
theorem c7_missing_pieces_counterexample :
    analyze c7cols [c7row] =
      .error "IndexError: index 0 is out of bounds for axis 0 with size 0" ∧
    (analyze c7cols [c7row]).toOption = none := by
  exact ⟨by with_unfolding_all rfl, by with_unfolding_all rfl⟩

/-- Claim C7, amended: the pieces column is located by the exact name
`'Number of pieces'` or else by the CASE-SENSITIVE substring `'pieces'`
(so `'PIECES'` and `'Piece count'` are not found); when none is found the
run aborts through the generic error handler instead of defaulting to 1
piece per row; in a detected column, missing or non-numeric values coerce
to 0 and numeric strings are used as-is. -/
theorem c7_pieces_detection_amended :
    find_qty_col c7cols = none ∧
    (analyze c7cols [c7row]).isOk = false ∧
    find_qty_col ["PIECES", "Qty"] = none ∧
    find_qty_col ["Total pieces count"] = some "Total pieces count" ∧
    find_qty_col ["Number of pieces", "alt pieces"] = some "Number of pieces" ∧
    pieces_val .vnone = 0 ∧
    pieces_val (.vstr "abc") = 0 ∧
    pieces_val (.vstr "4") = 4 ∧
    pieces_val (.vstr " 2.5 ") = 5 / 2 := by
  with_unfolding_all decide

/-- Claim C8, counterexample: with zero usable-duration rows (and all
referenced columns present) the run does NOT hard-stop: `analyze` succeeds
and a dashboard is rendered. -/
theorem c8_no_valid_rows_counterexample :
    (analyze c2cols [c8row]).isOk = true := by
  with_unfolding_all decide

/-- Claim C8, amended: with zero usable-duration rows the dashboard is
rendered anyway, with order count 0, `NaN` average metrics (numpy `0.0/0.0`)
and empty aggregate tables; there is no explicit no-data error and no listing
of detected columns (the only column listing in the script,
`generic_error_advice` shown by the top-level `except` handler, is a fixed
string of EXPECTED names). -/
theorem c8_no_valid_rows_amended :
    (analyze c2cols [c8row]).toOption.map
        (fun d => (d.celkemZakazek, d.avgOrderTime, d.weightedAvgPieceTime,
                   d.matStats, d.topSlowest, d.custStats)) =
      some (0, PFloat.nan, PFloat.nan, [], [], []) := by
  with_unfolding_all rfl

/-- Claim C9: a material with fewer than 3 valid occurrences never appears
in the "slowest materials" ranking: its `DN NUMBER (SAP)` count is at most
its occurrence count, hence below the fixed threshold 3 of line 146, so the
material is filtered out before the sort-and-take of line 149. -/
theorem c9_small_groups_excluded (vr : List VRow) (m : String)
    (h : (vr.filter (fun r => r.material = some m)).length < 3) :
    ∀ mr ∈ top_slowest vr, mr.material ≠ m := by
  intro mr hmem heq
  have h1 : mr ∈ List.insertionSort mppDesc (mat_stats_filtered vr) :=
    List.mem_of_mem_take hmem
  have h2 : mr ∈ mat_stats_filtered vr := by simpa using h1
  have h3 := List.mem_filter.mp h2
  have hcnt : 3 ≤ mr.dnCount := by simpa using h3.2
  obtain ⟨k, hk, hmk⟩ := List.mem_map.mp h3.1
  have hmat : mr.material = k := by rw [← hmk]; rfl
  have hkm : k = m := by rw [← hmat, heq]
  subst hkm
  have h4 : mr.dnCount ≤ (mat_group vr k).length := by
    rw [← hmk]
    simpa [mkMatRow] using List.length_filter_le (fun r => r.dnPresent) (mat_group vr k)
  have h5 : (mat_group vr k).length < 3 := by simpa [mat_group] using h
  omega

/-- Claim C9 witness: on `c9vr` the top entry of the ranking is not the
twice-occurring material `"A"`. -/
theorem c9_small_groups_excluded_witness :
    ((top_slowest c9vr).getD 0 default).material ≠ "A" :=
  c9_small_groups_excluded c9vr "A" (by with_unfolding_all decide)
    ((top_slowest c9vr).getD 0 default) (by with_unfolding_all decide)

/-- Claim C10: the exported `Material_Analysis` sheet is the UNfiltered
per-material aggregate: a material appears on it exactly when it occurs in
some valid row (no minimum-occurrence threshold), the sheet is sorted by
mean order duration descending, and no aggregate row is dropped. -/
theorem c10_material_sheet_unfiltered_sorted (vr : List VRow) (m : String) :
    (m ∈ (material_sheet vr).map (·.material) ↔ ∃ r ∈ vr, r.material = some m) ∧
    (material_sheet vr).Pairwise durDesc ∧
    (material_sheet vr).length = (mat_stats vr).length := by
  refine ⟨⟨?_, ?_⟩, ?_, ?_⟩
  · intro hm
    obtain ⟨mr, hmr, hmm⟩ := List.mem_map.mp hm
    have h1 : mr ∈ mat_stats vr := by simpa [material_sheet] using hmr
    obtain ⟨k, hk, hmk⟩ := List.mem_map.mp h1
    have hmat : mr.material = k := by rw [← hmk]; rfl
    have hkm : k = m := by rw [← hmat, hmm]
    subst hkm
    have h2 : k ∈ (vr.filterMap (·.material)).dedup := by simpa [matKeys] using hk
    obtain ⟨r, hr, hrk⟩ := List.mem_filterMap.mp (List.mem_dedup.mp h2)
    exact ⟨r, hr, hrk⟩
  · rintro ⟨r, hr, hrm⟩
    have h3 : m ∈ vr.filterMap (·.material) := List.mem_filterMap.mpr ⟨r, hr, hrm⟩
    have hk : m ∈ matKeys vr := by
      simpa [matKeys] using List.mem_dedup.mpr h3
    have h1 : mkMatRow vr m ∈ mat_stats vr := List.mem_map_of_mem _ hk
    have h0 : mkMatRow vr m ∈ material_sheet vr := by simpa [material_sheet] using h1
    exact List.mem_map.mpr ⟨mkMatRow vr m, h0, rfl⟩
  · exact List.sorted_insertionSort durDesc (mat_stats vr)
  · simp [material_sheet]

/-- Claim C6: for every duration `d` and piece count `p`, the final
`Min_per_Piece` value is the finite rational `d / p` when `p ≠ 0` and exactly
`0` when `p = 0`: the `inf`/`nan` that the raw division of line 108 can
produce is always overwritten by the guard of line 110, so no non-finite
value survives. -/
theorem c6_min_per_piece_total (d p : ℚ) :
    min_per_piece d p = .fin (if p = 0 then 0 else d / p) := by
  unfold min_per_piece PFloat.div
  by_cases hp : p = 0 <;> simp [hp]
